import Mathlib

/-!
Shallow embedding of the zoo-management submission pipeline
(`server/routes.ts`, `server/storage.ts`, `shared/schema.ts`).

JavaScript-specific semantics (truthiness, `undefined` interpolation,
`String.prototype.trim`) are modelled explicitly by the `js*` helpers.
-/

namespace Zoo

/-- JavaScript truthiness of an optional string field: `undefined` and the
empty string are falsy, every other string is truthy. -/
def jsTruthyS : Option String → Bool
  | some s => s != ""
  | none => false

/-- JavaScript truthiness of an optional boolean field: `undefined` is falsy. -/
def jsTruthyB : Option Bool → Bool
  | some b => b
  | none => false

/-- Template interpolation of an optional string: a missing field renders as
the literal text "undefined", exactly as a JS template literal does. -/
def jsStr : Option String → String
  | some s => s
  | none => "undefined"

/-- The `cond ? "Yes" : "No"` interpolation used for the boolean flags. -/
def yesNo (b : Option Bool) : String := if jsTruthyB b then "Yes" else "No"

/-- Whitespace as removed by `String.prototype.trim` (for the characters
occurring in the report template: space, newline). -/
def jsWs (c : Char) : Bool := c.isWhitespace

/-- Model of `String.prototype.trim`: removes leading and trailing
whitespace characters. -/
def jsTrim (s : String) : String :=
  ⟨((s.data.dropWhile jsWs).reverse.dropWhile jsWs).reverse⟩

/-- The structured observation payload produced by the extractor (or by the
fallback), as consumed by `generateTxtReport` in `server/routes.ts`.  All
fields are optional: the renderer receives untyped JSON (`data: any`). -/
structure StructuredObservation where
  date_or_day : Option String := none
  animal_observed_on_time : Option Bool := none
  clean_drinking_water_provided : Option Bool := none
  enclosure_cleaned_properly : Option Bool := none
  normal_behaviour_status : Option Bool := none
  normal_behaviour_details : Option String := none
  feed_and_supplements_available : Option Bool := none
  feed_given_as_prescribed : Option Bool := none
  other_animal_requirements : Option String := none
  incharge_signature : Option String := none
  daily_animal_health_monitoring : Option String := none
  carnivorous_animal_feeding_chart : Option String := none
  medicine_stock_register : Option String := none
  daily_wildlife_monitoring : Option String := none
deriving Repr, DecidableEq

/- Fixed pieces of the template literal of `generateTxtReport`
(`server/routes.ts`, lines 352-393), split at each interpolation point. -/

def tplHead : String :=
  "\nZOO ANIMAL MONITORING REPORT\n============================\n\nDate: "
def tplKeeper : String := "\nZoo Keeper: "
def tplGen : String := "\nGenerated: "
def tplObs1 : String :=
  "\n\nOBSERVATION DETAILS\n-------------------\nAnimal Observed on Time: "
def tplObs2 : String := "\nClean Drinking Water Provided: "
def tplObs3 : String := "\nEnclosure Cleaned Properly: "
def tplObs4 : String := "\nNormal Behaviour Status: "
def tplFeed1 : String := "\nFeed and Supplements Available: "
def tplFeed2 : String := "\nFeed Given as Prescribed: "
def tplMon : String :=
  "\n\nMONITORING SUMMARIES\n--------------------\nDaily Animal Health Monitoring:\n"
def tplCafc : String := "\n\nCarnivorous Animal Feeding Chart:\n"
def tplMsr : String := "\n\nMedicine Stock Register:\n"
def tplDwm : String := "\n\nDaily Wildlife Monitoring:\n"
def tplAuth : String := "\n\nAUTHORIZATION\n-------------\nIn-charge Signature: "
def tplFootMain : String :=
  "\n\n---\nThis report was generated automatically by the Zoo Management System."

/-- `tplHead` with its single leading newline removed (what survives the
left half of the final `.trim()`). -/
def tplHeadTrim : String :=
  "ZOO ANIMAL MONITORING REPORT\n============================\n\nDate: "

/-- The `${data.normal_behaviour_details ? ... : ""}` interpolation. -/
def behaviourDetailsLine (d : StructuredObservation) : String :=
  if jsTruthyS d.normal_behaviour_details then
    "Behaviour Details: " ++ jsStr d.normal_behaviour_details
  else ""

/-- The `${data.other_animal_requirements ? ... : ""}` interpolation. -/
def otherRequirementsLine (d : StructuredObservation) : String :=
  if jsTruthyS d.other_animal_requirements then
    "Other Requirements: " ++ jsStr d.other_animal_requirements
  else ""

/-- The data-dependent part of the template after the `Generated:` line and
before the fixed footer. -/
def bodyMain (d : StructuredObservation) : String :=
  tplObs1 ++ yesNo d.animal_observed_on_time ++
  tplObs2 ++ yesNo d.clean_drinking_water_provided ++
  tplObs3 ++ yesNo d.enclosure_cleaned_properly ++
  tplObs4 ++ yesNo d.normal_behaviour_status ++
  "\n" ++ behaviourDetailsLine d ++
  tplFeed1 ++ yesNo d.feed_and_supplements_available ++
  tplFeed2 ++ yesNo d.feed_given_as_prescribed ++
  "\n" ++ otherRequirementsLine d ++
  tplMon ++ jsStr d.daily_animal_health_monitoring ++
  tplCafc ++ jsStr d.carnivorous_animal_feeding_chart ++
  tplMsr ++ jsStr d.medicine_stock_register ++
  tplDwm ++ jsStr d.daily_wildlife_monitoring ++
  tplAuth ++ jsStr d.incharge_signature

/-- The template tail from `OBSERVATION DETAILS` to the end of the literal
(footer plus the trailing newline-and-two-spaces before the backtick). -/
def reportBody (d : StructuredObservation) : String :=
  bodyMain d ++ tplFootMain ++ "\n  "

/-- `generateTxtReport(data, keeperName, date)` from `server/routes.ts`.
The `new Date().toLocaleString()` clock read is passed in as `now`. -/
def generateTxtReport (data : StructuredObservation)
    (keeperName date now : String) : String :=
  jsTrim (tplHead ++ date ++ tplKeeper ++ keeperName ++ tplGen ++ now ++
    reportBody data)

/-- Everything of the rendered report that precedes the generation
timestamp, as a character list. -/
def renderedPre (keeperName date : String) : List Char :=
  tplHeadTrim.data ++ date.data ++ tplKeeper.data ++ keeperName.data ++
    tplGen.data

/-- Everything of the rendered report that follows the generation
timestamp, as a character list. -/
def renderedPost (d : StructuredObservation) : List Char :=
  (bodyMain d).data ++ tplFootMain.data

theorem dropWhile_tplHead (R : List Char) :
    List.dropWhile jsWs (tplHead.data ++ R) = tplHeadTrim.data ++ R := by
  rw [List.dropWhile_append]
  have h1 : List.dropWhile jsWs tplHead.data = tplHeadTrim.data := by rfl
  rw [h1]
  simp [tplHeadTrim]

theorem trimRight_concat (Y : List Char) :
    ((Y ++ (tplFootMain.data ++ ("\n  " : String).data)).reverse.dropWhile
      jsWs).reverse = Y ++ tplFootMain.data := by
  rw [List.reverse_append, List.reverse_append, List.append_assoc]
  rw [List.dropWhile_append]
  have h1 : List.dropWhile jsWs ("\n  " : String).data.reverse = [] := by rfl
  rw [h1]
  simp only [List.isEmpty_nil, if_true]
  rw [List.dropWhile_append]
  have h2 : List.dropWhile jsWs tplFootMain.data.reverse =
      tplFootMain.data.reverse := by rfl
  rw [h2]
  have h3 : tplFootMain.data.reverse.isEmpty = false := by rfl
  rw [h3]
  simp

theorem generateTxtReport_data (d : StructuredObservation)
    (n date t : String) :
    (generateTxtReport d n date t).data =
      renderedPre n date ++ t.data ++ renderedPost d := by
  show ((List.dropWhile jsWs
      ((tplHead ++ date ++ tplKeeper ++ n ++ tplGen ++ t ++
        reportBody d).data)).reverse.dropWhile jsWs).reverse = _
  have h0 : (tplHead ++ date ++ tplKeeper ++ n ++ tplGen ++ t ++
      reportBody d).data = tplHead.data ++
      (date.data ++ tplKeeper.data ++ n.data ++ tplGen.data ++ t.data ++
        (reportBody d).data) := by
    simp [String.data_append, List.append_assoc]
  rw [h0, dropWhile_tplHead]
  have h1 : tplHeadTrim.data ++
      (date.data ++ tplKeeper.data ++ n.data ++ tplGen.data ++ t.data ++
        (reportBody d).data) =
      (renderedPre n date ++ t.data ++ (bodyMain d).data) ++
        (tplFootMain.data ++ ("\n  " : String).data) := by
    simp [renderedPre, reportBody, String.data_append, List.append_assoc]
  rw [h1, trimRight_concat]
  simp [renderedPost, List.append_assoc]

/-! ## Data model (`shared/schema.ts`) -/

/-- A row of the `users` table. -/
structure User where
  id : String
  userId : String
  password : String
  role : String
  name : String
deriving Repr, DecidableEq

/-- A row of the `submissions` table.  Timestamps are abstract clock ticks. -/
structure Submission where
  id : Nat
  userId : String
  date : String
  audioFileName : Option String
  transcription : Option String
  structuredData : Option StructuredObservation
  txtFileName : Option String
  status : Option String
  createdAt : Nat
  updatedAt : Nat
deriving Repr, DecidableEq

/-- A row of the `comments` table. -/
structure Comment where
  id : Nat
  submissionId : Nat
  userId : String
  content : String
  createdAt : Nat
deriving Repr, DecidableEq

/-- The database state seen by `server/storage.ts`, with the serial-id
counters of the `id` columns. -/
structure Store where
  users : List User
  submissions : List Submission
  comments : List Comment
  nextSubmissionId : Nat
  nextCommentId : Nat
deriving Repr, DecidableEq

/-! ## Storage operations (`server/storage.ts`) -/

/-- The insert payload of `createSubmission`. -/
structure InsertSubmission where
  userId : String
  date : String
  audioFileName : Option String
  transcription : Option String
  structuredData : Option StructuredObservation
  txtFileName : Option String
  status : Option String
deriving Repr, DecidableEq

/-- `ORDER BY submissions.createdAt DESC`. -/
def byCreatedAtDesc (a b : Submission) : Bool := b.createdAt ≤ a.createdAt

/-- `ORDER BY comments.createdAt DESC`. -/
def byCommentCreatedAtDesc (a b : Comment) : Bool := b.createdAt ≤ a.createdAt

/-- The placeholder produced by the non-null assertion `row.users!` in
`storage.ts` when the joined user row is absent. -/
def dummyUser : User := { id := "", userId := "", password := "", role := "", name := "" }

/-- The `leftJoin(users, eq(submissions.userId, users.id))` author lookup;
the source asserts the joined row non-null with `row.users!`. -/
def findUser (st : Store) (uid : String) : User :=
  (st.users.find? (fun u => u.id == uid)).getD dummyUser

/-- `DatabaseStorage.createSubmission`: insert and return the new row;
`createdAt`/`updatedAt` take the database clock default. -/
def createSubmission (st : Store) (ins : InsertSubmission) (now : Nat) :
    Submission × Store :=
  let sub : Submission :=
    { id := st.nextSubmissionId, userId := ins.userId, date := ins.date,
      audioFileName := ins.audioFileName, transcription := ins.transcription,
      structuredData := ins.structuredData, txtFileName := ins.txtFileName,
      status := ins.status, createdAt := now, updatedAt := now }
  (sub, { st with submissions := st.submissions ++ [sub],
                  nextSubmissionId := st.nextSubmissionId + 1 })

/-- `DatabaseStorage.getSubmissionsByUser`: rows with the given author id,
newest first, each joined with its author row. -/
def getSubmissionsByUser (st : Store) (uid : String) :
    List (Submission × User) :=
  ((st.submissions.filter (fun s => s.userId == uid)).mergeSort
    byCreatedAtDesc).map (fun s => (s, findUser st s.userId))

/-- `DatabaseStorage.getAllSubmissions`: all rows, newest first, joined. -/
def getAllSubmissions (st : Store) : List (Submission × User) :=
  (st.submissions.mergeSort byCreatedAtDesc).map
    (fun s => (s, findUser st s.userId))

/-- `DatabaseStorage.getCommentsBySubmission`: comments of one submission,
newest first, joined with their author rows. -/
def getCommentsBySubmission (st : Store) (sid : Nat) :
    List (Comment × User) :=
  ((st.comments.filter (fun c => c.submissionId == sid)).mergeSort
    byCommentCreatedAtDesc).map (fun c => (c, findUser st c.userId))

/-- The `SubmissionWithComments` shape returned by `getSubmissionById`. -/
structure SubmissionWithComments where
  sub : Submission
  user : User
  comments : List (Comment × User)
deriving Repr, DecidableEq

/-- `DatabaseStorage.getSubmissionById`. -/
def getSubmissionById (st : Store) (sid : Nat) :
    Option SubmissionWithComments :=
  (st.submissions.find? (fun s => s.id == sid)).map
    (fun s => { sub := s, user := findUser st s.userId,
                comments := getCommentsBySubmission st s.id })

/-- `DatabaseStorage.updateSubmission`: sets the columns of the update
payload plus `updatedAt: new Date()` on the matching row and returns it.
The only caller passes a `structuredData` value, modelled as the
`newStructuredData` argument. -/
def updateSubmission (st : Store) (sid : Nat)
    (newStructuredData : Option StructuredObservation) (now : Nat) :
    Option Submission × Store :=
  let subs := st.submissions.map (fun s =>
    if s.id == sid then
      { s with structuredData := newStructuredData, updatedAt := now }
    else s)
  (subs.find? (fun s => s.id == sid), { st with submissions := subs })

/-- `DatabaseStorage.createComment`: insert, subject to the foreign-key
constraints of `shared/schema.ts` (`submissionId` and `userId` must
reference existing rows); a violated constraint makes the insert throw. -/
def createComment (st : Store) (sid : Nat) (uid : String)
    (content : String) (now : Nat) : Except String (Comment × Store) :=
  if st.submissions.any (fun s => s.id == sid) then
    if st.users.any (fun u => u.id == uid) then
      let c : Comment := { id := st.nextCommentId, submissionId := sid,
                           userId := uid, content := content,
                           createdAt := now }
      .ok (c, { st with comments := st.comments ++ [c],
                        nextCommentId := st.nextCommentId + 1 })
    else .error "foreign key violation: userId"
  else .error "foreign key violation: submissionId"

/-! ## File-system effects of the routes -/

/-- The file-system state touched by the routes: files under `uploads/`
(the multer upload and the copied temp file) and the rendered report
artifacts under `reports/`, keyed by file name. -/
structure Fs where
  tmpFiles : List String
  reports : String → Option String

/-- `fs.writeFile` into `reports/`. -/
def writeReport (fs : Fs) (name content : String) : Fs :=
  { fs with reports := fun n => if n == name then some content else fs.reports n }

/-- `fs.unlink` of a temporary audio file. -/
def unlinkTmp (fs : Fs) (p : String) : Fs :=
  { fs with tmpFiles := fs.tmpFiles.erase p }

/-! ## Route handlers (`server/routes.ts`) -/

/-- `requireAuth`: a request passes iff the session carries a user. -/
def requireAuth (sess : Option User) : Bool := sess.isSome

/-- `requireRole(roles)`: `roles.includes(req.session?.user?.role)`. -/
def requireRole (roles : List String) (sess : Option User) : Bool :=
  match sess with
  | some u => roles.contains u.role
  | none => false

/-- Outcome of the python extraction subprocess plus `JSON.parse`:
either a parsed structured observation (with whether the raw stdout
contains the word "transcript"), or any thrown error (subprocess failure,
timeout, malformed output), which lands in the fallback `catch` block. -/
inductive ExtractOutcome where
  | ok (structuredData : StructuredObservation) (stdoutMentionsTranscript : Bool)
  | fail
deriving Repr, DecidableEq

/-- The deterministic fallback record built in the `catch` block of
`POST /api/submissions/audio` (routes.ts lines 184-199). -/
def fallbackData (date userName : String) : StructuredObservation :=
  { date_or_day := some date,
    animal_observed_on_time := some true,
    clean_drinking_water_provided := some true,
    enclosure_cleaned_properly := some true,
    normal_behaviour_status := some true,
    normal_behaviour_details := none,
    feed_and_supplements_available := some true,
    feed_given_as_prescribed := some true,
    other_animal_requirements := some "Audio processing error - manual review required",
    incharge_signature := some userName,
    daily_animal_health_monitoring :=
      some ("Observation recorded on " ++ date ++ " - Audio processing encountered an error"),
    carnivorous_animal_feeding_chart := some "Standard feeding schedule followed",
    medicine_stock_register := some "Stock levels adequate",
    daily_wildlife_monitoring := some ("Wildlife monitoring completed on " ++ date) }

/-- The responses the handlers can produce. -/
inductive ApiResult where
  | unauthorized
  | forbidden
  | badRequest (message : String)
  | notFound (message : String)
  | serverError (message : String)
  | okSubmit (submissionId : Nat) (structuredData : StructuredObservation) (message : String)
  | okList (subs : List (Submission × User))
  | okDetail (s : SubmissionWithComments)
  | okComment (c : Comment)
  | okDownload (fileName : String) (content : Option String)
  | okUpdated (s : Option Submission)
deriving Repr, DecidableEq

/-- Whether a response is an error response (HTTP 4xx or 5xx). -/
def ApiResult.isError : ApiResult → Bool
  | .unauthorized | .forbidden | .badRequest _ | .notFound _ | .serverError _ => true
  | _ => false

/-- Whether a response is a 404-class NotFound response. -/
def ApiResult.is404 : ApiResult → Bool
  | .notFound _ => true
  | _ => false

/-- `POST /api/submissions/audio`.  `file` is the multer upload path
(`req.file.path`), already present in `fs.tmpFiles` when given; the
`Date.now()` reads for the two generated file names are `tWav`/`tTxt`, the
database clock is `dbNow` and the report timestamp string is `nowStr`. -/
def postSubmissionAudio (sess : Option User) (file : Option String)
    (date : Option String) (extract : ExtractOutcome)
    (tWav tTxt dbNow : Nat) (nowStr : String)
    (st : Store) (fs : Fs) : ApiResult × Store × Fs :=
  match sess with
  | none => (.unauthorized, st, fs)
  | some user =>
    if ¬ (["zookeeper"].contains user.role) then (.forbidden, st, fs)
    else match file with
    | none => (.badRequest "Audio file is required", st, fs)
    | some audioPath =>
      if ¬ jsTruthyS date then (.badRequest "Date is required", st, fs)
      else
        let d := date.getD ""
        let audioFileName := user.userId ++ "_" ++ d ++ "_" ++ toString tWav ++ ".wav"
        let tempAudioPath := "uploads/" ++ audioFileName
        let fs1 : Fs := { fs with tmpFiles := fs.tmpFiles ++ [tempAudioPath] }
        match extract with
        | .ok sd hasTranscript =>
          let txtFileName := user.userId ++ "_" ++ d ++ "_" ++ toString tTxt ++ ".txt"
          let fs2 := writeReport fs1 txtFileName (generateTxtReport sd user.name d nowStr)
          let (sub, st1) := createSubmission st
            { userId := user.id, date := d,
              audioFileName := some audioFileName,
              transcription := if hasTranscript then some "Transcribed from Hindi audio" else none,
              structuredData := some sd, txtFileName := some txtFileName,
              status := some "processed" } dbNow
          let fs3 := unlinkTmp (unlinkTmp fs2 audioPath) tempAudioPath
          (.okSubmit sub.id sd "Audio processed successfully", st1, fs3)
        | .fail =>
          let fb := fallbackData d user.name
          let txtFileName := user.userId ++ "_" ++ d ++ "_" ++ toString tTxt ++ "_fallback.txt"
          let fs2 := writeReport fs1 txtFileName (generateTxtReport fb user.name d nowStr)
          let (sub, st1) := createSubmission st
            { userId := user.id, date := d,
              audioFileName := some audioFileName,
              transcription := some "Audio processing failed",
              structuredData := some fb, txtFileName := some txtFileName,
              status := some "processed" } dbNow
          (.okSubmit sub.id fb "Audio processed with fallback data", st1, fs2)

/-- `GET /api/submissions/my`. -/
def getMySubmissions (sess : Option User) (st : Store) : ApiResult :=
  match sess with
  | none => .unauthorized
  | some user =>
    if ¬ (["zookeeper"].contains user.role) then .forbidden
    else .okList (getSubmissionsByUser st user.id)

/-- `GET /api/submissions/all`. -/
def getAllSubmissionsRoute (sess : Option User) (st : Store) : ApiResult :=
  match sess with
  | none => .unauthorized
  | some user =>
    if ¬ (["admin", "doctor"].contains user.role) then .forbidden
    else .okList (getAllSubmissions st)

/-- `GET /api/submissions/:id`. -/
def getSubmissionDetail (sess : Option User) (st : Store) (sid : Nat) :
    ApiResult :=
  match sess with
  | none => .unauthorized
  | some _ =>
    match getSubmissionById st sid with
    | none => .notFound "Submission not found"
    | some swc => .okDetail swc

/-- `POST /api/submissions/:id/comments`.  `insertCommentSchema.parse`
requires both a `submissionId` and a `content` field in the body (the
handler then only uses `content`, taking the id from the URL); a parse
failure or a foreign-key violation is caught and mapped to 400. -/
def postComment (sess : Option User) (st : Store) (sid : Nat)
    (bodySubmissionId : Option Nat) (bodyContent : Option String)
    (now : Nat) : ApiResult × Store :=
  match sess with
  | none => (.unauthorized, st)
  | some user =>
    if ¬ (["admin", "doctor"].contains user.role) then (.forbidden, st)
    else match bodySubmissionId, bodyContent with
    | some _, some content =>
      match createComment st sid user.id content now with
      | .ok (c, st1) => (.okComment c, st1)
      | .error _ => (.badRequest "Failed to add comment", st)
    | _, _ => (.badRequest "Failed to add comment", st)

/-- `GET /api/submissions/:id/download`: 404 when the submission is absent
or its `txtFileName` is falsy, otherwise serves the stored artifact. -/
def downloadReport (sess : Option User) (st : Store) (fs : Fs) (sid : Nat) :
    ApiResult :=
  match sess with
  | none => .unauthorized
  | some _ =>
    match getSubmissionById st sid with
    | none => .notFound "Report not found"
    | some swc =>
      if ¬ jsTruthyS swc.sub.txtFileName then .notFound "Report not found"
      else
        let f := swc.sub.txtFileName.getD ""
        .okDownload f (fs.reports f)

/-- `PUT /api/submissions/:id`.  When the body carries a truthy
`structuredData` the report is re-rendered at the old `txtFileName` (the
source asserts it non-null with `submission.txtFileName!`); the row is
then updated with `structuredData || submission.structuredData`. -/
def putSubmission (sess : Option User) (st : Store) (fs : Fs) (sid : Nat)
    (reqStructuredData : Option StructuredObservation)
    (dbNow : Nat) (nowStr : String) : ApiResult × Store × Fs :=
  match sess with
  | none => (.unauthorized, st, fs)
  | some user =>
    match getSubmissionById st sid with
    | none => (.notFound "Submission not found", st, fs)
    | some swc =>
      if user.role == "zookeeper" && swc.sub.userId != user.id then
        (.forbidden, st, fs)
      else
        let fs1 := match reqStructuredData with
          | some sd => writeReport fs (swc.sub.txtFileName.getD "")
              (generateTxtReport sd swc.user.name swc.sub.date nowStr)
          | none => fs
        let newVal := match reqStructuredData with
          | some sd => some sd
          | none => swc.sub.structuredData
        let (updated, st1) := updateSubmission st sid newVal dbNow
        (.okUpdated updated, st1, fs1)

/-! ## Concrete fixtures used by the witnesses -/

def keeper0 : User :=
  { id := "u-k1", userId := "k1", password := "pw", role := "zookeeper",
    name := "Keeper One" }

def keeper1 : User :=
  { id := "u-k2", userId := "k2", password := "pw", role := "zookeeper",
    name := "Keeper Two" }

def doctor0 : User :=
  { id := "u-d1", userId := "d1", password := "pw", role := "doctor",
    name := "Doc" }

def st0 : Store :=
  { users := [keeper0, keeper1, doctor0], submissions := [], comments := [],
    nextSubmissionId := 1, nextCommentId := 1 }

def fs0 : Fs := { tmpFiles := ["uploads/raw0"], reports := fun _ => none }

end Zoo

namespace Zoo

/-! ## Claim C1 -/

/-- C1: when the extractor fails (any failure kind), `POST
/api/submissions/audio` still persists a submission with status
"processed" whose structuredData is the deterministic fallback record —
all boolean flags true, `other_animal_requirements` the fixed
manual-review marker, the record tied to the given date, transcription a
failure marker — and the response is a success, never an error. -/
theorem submit_extraction_failure_absorbed
    (user : User) (hrole : user.role = "zookeeper")
    (audioPath date : String) (hdate : date ≠ "")
    (tWav tTxt dbNow : Nat) (nowStr : String) (st : Store) (fs : Fs) :
    let r := postSubmissionAudio (some user) (some audioPath) (some date)
      .fail tWav tTxt dbNow nowStr st fs
    ∃ sub : Submission,
      r.1 = .okSubmit sub.id (fallbackData date user.name)
        "Audio processed with fallback data" ∧
      r.2.1.submissions = st.submissions ++ [sub] ∧
      sub.status = some "processed" ∧
      sub.structuredData = some (fallbackData date user.name) ∧
      sub.transcription = some "Audio processing failed" ∧
      (fallbackData date user.name).animal_observed_on_time = some true ∧
      (fallbackData date user.name).clean_drinking_water_provided = some true ∧
      (fallbackData date user.name).enclosure_cleaned_properly = some true ∧
      (fallbackData date user.name).normal_behaviour_status = some true ∧
      (fallbackData date user.name).feed_and_supplements_available = some true ∧
      (fallbackData date user.name).feed_given_as_prescribed = some true ∧
      (fallbackData date user.name).other_animal_requirements =
        some "Audio processing error - manual review required" ∧
      (fallbackData date user.name).date_or_day = some date ∧
      r.1.isError = false := by
  refine ⟨{ id := st.nextSubmissionId, userId := user.id, date := date,
            audioFileName := some (user.userId ++ "_" ++ date ++ "_" ++
              toString tWav ++ ".wav"),
            transcription := some "Audio processing failed",
            structuredData := some (fallbackData date user.name),
            txtFileName := some (user.userId ++ "_" ++ date ++ "_" ++
              toString tTxt ++ "_fallback.txt"),
            status := some "processed",
            createdAt := dbNow, updatedAt := dbNow }, ?_, ?_, rfl, rfl, rfl,
          rfl, rfl, rfl, rfl, rfl, rfl, rfl, rfl, ?_⟩ <;>
    simp [postSubmissionAudio, createSubmission, hrole, jsTruthyS, hdate,
      ApiResult.isError]

/-- Witness for C1 at a concrete keeper, date and empty store. -/
theorem submit_extraction_failure_absorbed_witness :
    keeper0.role = "zookeeper" ∧ ("2024-05-01" : String) ≠ "" ∧
    (let r := postSubmissionAudio (some keeper0) (some "uploads/raw0")
        (some "2024-05-01") .fail 7 8 9 "TS" st0 fs0
      ∃ sub : Submission,
        r.1 = .okSubmit sub.id (fallbackData "2024-05-01" keeper0.name)
          "Audio processed with fallback data" ∧
        r.2.1.submissions = st0.submissions ++ [sub] ∧
        sub.status = some "processed" ∧
        sub.structuredData = some (fallbackData "2024-05-01" keeper0.name) ∧
        sub.transcription = some "Audio processing failed" ∧
        (fallbackData "2024-05-01" keeper0.name).animal_observed_on_time = some true ∧
        (fallbackData "2024-05-01" keeper0.name).clean_drinking_water_provided = some true ∧
        (fallbackData "2024-05-01" keeper0.name).enclosure_cleaned_properly = some true ∧
        (fallbackData "2024-05-01" keeper0.name).normal_behaviour_status = some true ∧
        (fallbackData "2024-05-01" keeper0.name).feed_and_supplements_available = some true ∧
        (fallbackData "2024-05-01" keeper0.name).feed_given_as_prescribed = some true ∧
        (fallbackData "2024-05-01" keeper0.name).other_animal_requirements =
          some "Audio processing error - manual review required" ∧
        (fallbackData "2024-05-01" keeper0.name).date_or_day = some "2024-05-01" ∧
        r.1.isError = false) :=
  ⟨rfl, by decide,
    submit_extraction_failure_absorbed keeper0 rfl "uploads/raw0"
      "2024-05-01" (by decide) 7 8 9 "TS" st0 fs0⟩

/-! ## Claim C2 -/

/-- C2: for a valid submit call (audio present, date non-empty, keeper
author) where extraction succeeds, a submission is persisted and returned
with status "processed", structuredData equal to the extractor output and
a non-null `txtFileName` under which the rendered report artifact was
written. -/
theorem submit_success_processed
    (user : User) (hrole : user.role = "zookeeper")
    (audioPath date : String) (hdate : date ≠ "")
    (sd : StructuredObservation) (hasT : Bool)
    (tWav tTxt dbNow : Nat) (nowStr : String) (st : Store) (fs : Fs) :
    let r := postSubmissionAudio (some user) (some audioPath) (some date)
      (.ok sd hasT) tWav tTxt dbNow nowStr st fs
    ∃ sub : Submission,
      r.1 = .okSubmit sub.id sd "Audio processed successfully" ∧
      r.2.1.submissions = st.submissions ++ [sub] ∧
      sub.status = some "processed" ∧
      sub.structuredData = some sd ∧
      sub.txtFileName =
        some (user.userId ++ "_" ++ date ++ "_" ++ toString tTxt ++ ".txt") ∧
      r.2.2.reports (user.userId ++ "_" ++ date ++ "_" ++ toString tTxt ++ ".txt") =
        some (generateTxtReport sd user.name date nowStr) ∧
      r.1.isError = false := by
  refine ⟨{ id := st.nextSubmissionId, userId := user.id, date := date,
            audioFileName := some (user.userId ++ "_" ++ date ++ "_" ++
              toString tWav ++ ".wav"),
            transcription := if hasT then some "Transcribed from Hindi audio" else none,
            structuredData := some sd,
            txtFileName := some (user.userId ++ "_" ++ date ++ "_" ++
              toString tTxt ++ ".txt"),
            status := some "processed",
            createdAt := dbNow, updatedAt := dbNow }, ?_, ?_, rfl, rfl, rfl,
          ?_, ?_⟩ <;>
    simp [postSubmissionAudio, createSubmission, writeReport, unlinkTmp,
      hrole, jsTruthyS, hdate, ApiResult.isError]

/-- Witness for C2 at a concrete keeper, a concrete extractor output and
an empty store. -/
theorem submit_success_processed_witness :
    keeper0.role = "zookeeper" ∧ ("2024-05-01" : String) ≠ "" ∧
    (let r := postSubmissionAudio (some keeper0) (some "uploads/raw0")
        (some "2024-05-01") (.ok { date_or_day := some "2024-05-01" } false)
        7 8 9 "TS" st0 fs0
      ∃ sub : Submission,
        r.1 = .okSubmit sub.id { date_or_day := some "2024-05-01" }
          "Audio processed successfully" ∧
        r.2.1.submissions = st0.submissions ++ [sub] ∧
        sub.status = some "processed" ∧
        sub.structuredData = some { date_or_day := some "2024-05-01" } ∧
        sub.txtFileName =
          some (keeper0.userId ++ "_" ++ "2024-05-01" ++ "_" ++ toString 8 ++ ".txt") ∧
        r.2.2.reports (keeper0.userId ++ "_" ++ "2024-05-01" ++ "_" ++ toString 8 ++ ".txt") =
          some (generateTxtReport { date_or_day := some "2024-05-01" }
            keeper0.name "2024-05-01" "TS") ∧
        r.1.isError = false) :=
  ⟨rfl, by decide,
    submit_success_processed keeper0 rfl "uploads/raw0" "2024-05-01"
      (by decide) { date_or_day := some "2024-05-01" } false 7 8 9 "TS" st0 fs0⟩

/-! ## Claim C3 -/

/-- C3 counterexample: a concrete submit call in which extraction fails
leaves both temporary audio files (the multer upload `uploads/raw0` and
the copied temp file) on disk when the call completes — the fallback
`catch` block never unlinks them, so the claimed every-exit-path cleanup
fails. -/
theorem submit_cleanup_counterexample :
    (postSubmissionAudio (some keeper0) (some "uploads/raw0")
      (some "2024-05-01") .fail 7 8 9 "TS" st0 fs0).2.2.tmpFiles =
      ["uploads/raw0", "uploads/k1_2024-05-01_7.wav"] := by
  rfl

/-- C3 amended: temporary audio files are removed only on the success
path; when extraction fails, both the uploaded file and the copied temp
file remain after the call. -/
theorem submit_cleanup_success_only
    (user : User) (hrole : user.role = "zookeeper")
    (audioPath date : String) (hdate : date ≠ "")
    (sd : StructuredObservation) (hasT : Bool)
    (tWav tTxt dbNow : Nat) (nowStr : String) (st : Store) (fs : Fs)
    (hfs : fs.tmpFiles = [audioPath]) :
    (postSubmissionAudio (some user) (some audioPath) (some date)
      (.ok sd hasT) tWav tTxt dbNow nowStr st fs).2.2.tmpFiles = [] ∧
    (postSubmissionAudio (some user) (some audioPath) (some date)
      .fail tWav tTxt dbNow nowStr st fs).2.2.tmpFiles =
      [audioPath,
       "uploads/" ++ user.userId ++ "_" ++ date ++ "_" ++ toString tWav ++ ".wav"] := by
  constructor <;>
    simp [postSubmissionAudio, createSubmission, writeReport, unlinkTmp,
      hrole, jsTruthyS, hdate, hfs, List.erase_cons, String.append_assoc]

/-- Witness for the amended C3 at a concrete call. -/
theorem submit_cleanup_success_only_witness :
    keeper0.role = "zookeeper" ∧ ("2024-05-01" : String) ≠ "" ∧
    fs0.tmpFiles = ["uploads/raw0"] ∧
    ((postSubmissionAudio (some keeper0) (some "uploads/raw0")
      (some "2024-05-01") (.ok { date_or_day := some "2024-05-01" } false)
      7 8 9 "TS" st0 fs0).2.2.tmpFiles = [] ∧
    (postSubmissionAudio (some keeper0) (some "uploads/raw0")
      (some "2024-05-01") .fail 7 8 9 "TS" st0 fs0).2.2.tmpFiles =
      ["uploads/raw0",
       "uploads/" ++ keeper0.userId ++ "_" ++ "2024-05-01" ++ "_" ++ toString 7 ++ ".wav"]) :=
  ⟨rfl, by decide, rfl,
    submit_cleanup_success_only keeper0 rfl "uploads/raw0" "2024-05-01"
      (by decide) { date_or_day := some "2024-05-01" } false 7 8 9 "TS"
      st0 fs0 rfl⟩

/-! ## More fixtures: a store holding one processed submission of keeper0 -/

def sub0 : Submission :=
  { id := 1, userId := "u-k1", date := "2024-05-01",
    audioFileName := some "k1_2024-05-01_7.wav", transcription := none,
    structuredData := some { date_or_day := some "2024-05-01" },
    txtFileName := some "k1_2024-05-01_8.txt", status := some "processed",
    createdAt := 10, updatedAt := 10 }

def st1 : Store :=
  { users := [keeper0, keeper1, doctor0], submissions := [sub0],
    comments := [], nextSubmissionId := 2, nextCommentId := 1 }

/-! ## Claim C4 -/

/-- C4: the own-submissions listing for a keeper returns only rows whose
author id is that keeper's id, and a keeper attempting to update a
submission they do not author is rejected with 403. -/
theorem keeper_own_submissions_only (st : Store) :
    (∀ user : User, user.role = "zookeeper" →
      getMySubmissions (some user) st =
        .okList (getSubmissionsByUser st user.id)) ∧
    (∀ (uid : String) (p : Submission × User),
      p ∈ getSubmissionsByUser st uid → p.1.userId = uid) ∧
    (∀ (user : User) (fs : Fs) (sid : Nat) (swc : SubmissionWithComments)
        (req : Option StructuredObservation) (dbNow : Nat) (nowStr : String),
      user.role = "zookeeper" → getSubmissionById st sid = some swc →
      swc.sub.userId ≠ user.id →
      putSubmission (some user) st fs sid req dbNow nowStr =
        (.forbidden, st, fs)) := by
  refine ⟨?_, ?_, ?_⟩
  · intro user h
    simp [getMySubmissions, h]
  · intro uid p hp
    simp only [getSubmissionsByUser, List.mem_map] at hp
    obtain ⟨s, hs, rfl⟩ := hp
    rw [List.mem_mergeSort, List.mem_filter] at hs
    simpa using hs.2
  · intro user fs sid swc req dbNow nowStr hrole hfind hne
    simp [putSubmission, hfind, hrole, hne]

/-- Witness for C4: keeper0's listing over a one-submission store, the
membership fact for that row, and keeper1 being refused an update of
keeper0's submission. -/
theorem keeper_own_submissions_only_witness :
    (keeper0.role = "zookeeper" ∧
      getMySubmissions (some keeper0) st1 =
        .okList (getSubmissionsByUser st1 keeper0.id)) ∧
    ((sub0, keeper0) ∈ getSubmissionsByUser st1 "u-k1" ∧
      (sub0, keeper0).1.userId = "u-k1") ∧
    (keeper1.role = "zookeeper" ∧
      getSubmissionById st1 1 = some ⟨sub0, keeper0, []⟩ ∧
      sub0.userId ≠ keeper1.id ∧
      putSubmission (some keeper1) st1 fs0 1 none 20 "TS" =
        (.forbidden, st1, fs0)) := by
  have hmem : (sub0, keeper0) ∈ getSubmissionsByUser st1 "u-k1" := by
    simp [getSubmissionsByUser, st1, List.mergeSort_singleton, findUser,
      sub0, keeper0]
  have hfind : getSubmissionById st1 1 = some ⟨sub0, keeper0, []⟩ := by
    simp [getSubmissionById, getCommentsBySubmission, st1, sub0, findUser,
      keeper0, List.mergeSort_nil]
  refine ⟨⟨rfl, (keeper_own_submissions_only st1).1 keeper0 rfl⟩,
    ⟨hmem, (keeper_own_submissions_only st1).2.1 "u-k1" (sub0, keeper0) hmem⟩,
    ⟨rfl, hfind, by decide,
      (keeper_own_submissions_only st1).2.2 keeper1 fs0 1 ⟨sub0, keeper0, []⟩
        none 20 "TS" rfl hfind (by decide)⟩⟩

/-! ## Claim C5 -/

/-- C5: the list-all and create-comment operations are gated on role ∈
\x7badmin, doctor\x7d: an unauthenticated call gets 401, a caller whose role is
neither admin nor doctor (in particular a keeper) gets 403, and an admin
or doctor can list all submissions and add a comment to any existing
submission. -/
theorem admin_doctor_gate (st : Store) :
    (getAllSubmissionsRoute none st = .unauthorized) ∧
    (∀ (sid : Nat) (bsid : Option Nat) (bc : Option String) (now : Nat),
      postComment none st sid bsid bc now = (.unauthorized, st)) ∧
    (∀ u : User, u.role ≠ "admin" → u.role ≠ "doctor" →
      getAllSubmissionsRoute (some u) st = .forbidden ∧
      ∀ (sid : Nat) (bsid : Option Nat) (bc : Option String) (now : Nat),
        postComment (some u) st sid bsid bc now = (.forbidden, st)) ∧
    (∀ u : User, u.role = "admin" ∨ u.role = "doctor" →
      getAllSubmissionsRoute (some u) st = .okList (getAllSubmissions st) ∧
      ∀ s ∈ st.submissions, st.users.any (fun x => x.id == u.id) = true →
        ∀ (bsid : Nat) (content : String) (now : Nat),
          ∃ c : Comment,
            postComment (some u) st s.id (some bsid) (some content) now =
              (.okComment c,
               { st with comments := st.comments ++ [c],
                         nextCommentId := st.nextCommentId + 1 }) ∧
            c.content = content ∧ c.submissionId = s.id ∧
            c.userId = u.id) := by
  refine ⟨rfl, fun _ _ _ _ => rfl, ?_, ?_⟩
  · intro u h1 h2
    constructor
    · simp [getAllSubmissionsRoute, h1, h2]
    · intro sid bsid bc now
      simp [postComment, h1, h2]
  · intro u hrole
    have key1 : getAllSubmissionsRoute (some u) st =
        .okList (getAllSubmissions st) := by
      rcases hrole with h' | h' <;> simp [getAllSubmissionsRoute, h']
    refine ⟨key1, ?_⟩
    intro s hs hu bsid content now
    have hany : st.submissions.any (fun x => x.id == s.id) = true :=
      List.any_eq_true.mpr ⟨s, hs, by simp⟩
    refine ⟨{ id := st.nextCommentId, submissionId := s.id, userId := u.id,
              content := content, createdAt := now }, ?_, rfl, rfl, rfl⟩
    rcases hrole with h' | h' <;>
      simp [postComment, createComment, h', hany, hu]

/-- Witness for C5: the 401, the keeper's 403, the doctor's successful
list-all and the doctor's successful comment on the stored submission. -/
theorem admin_doctor_gate_witness :
    (getAllSubmissionsRoute none st1 = .unauthorized) ∧
    (postComment none st1 1 (some 1) (some "hi") 5 = (.unauthorized, st1)) ∧
    (keeper0.role ≠ "admin" ∧ keeper0.role ≠ "doctor" ∧
      getAllSubmissionsRoute (some keeper0) st1 = .forbidden ∧
      postComment (some keeper0) st1 1 (some 1) (some "hi") 5 =
        (.forbidden, st1)) ∧
    (doctor0.role = "doctor" ∧
      getAllSubmissionsRoute (some doctor0) st1 =
        .okList (getAllSubmissions st1) ∧
      sub0 ∈ st1.submissions ∧
      st1.users.any (fun x => x.id == doctor0.id) = true ∧
      ∃ c : Comment,
        postComment (some doctor0) st1 sub0.id (some 1) (some "hi") 5 =
          (.okComment c,
           { st1 with comments := st1.comments ++ [c],
                      nextCommentId := st1.nextCommentId + 1 }) ∧
        c.content = "hi" ∧ c.submissionId = sub0.id ∧
        c.userId = doctor0.id) := by
  obtain ⟨h1, h2, h3, h4⟩ := admin_doctor_gate st1
  have hk := h3 keeper0 (by decide) (by decide)
  have hd := h4 doctor0 (Or.inr rfl)
  exact ⟨h1, h2 1 (some 1) (some "hi") 5,
    ⟨by decide, by decide, hk.1, hk.2 1 (some 1) (some "hi") 5⟩,
    ⟨rfl, hd.1, by simp [st1], by decide,
      hd.2 sub0 (by simp [st1]) (by decide) 1 "hi" 5⟩⟩

/-! ## Claim C9 -/

/-- C9 counterexample: adding a comment under an unknown submission id as
a doctor does not produce a 404-class response — the foreign-key failure
is caught and mapped to a 400-class "Failed to add comment" (the store is
left unchanged, but the claimed NotFound response is wrong for this
operation). -/
theorem unknown_id_comment_counterexample :
    postComment (some doctor0) st0 1 (some 1) (some "hi") 5 =
      (.badRequest "Failed to add comment", st0) ∧
    (ApiResult.badRequest "Failed to add comment").is404 = false := by
  exact ⟨rfl, rfl⟩

/-- C9 amended: with an id matching no submission, get-details, download
and update answer 404 and leave the store unchanged, while add-comment is
rejected through the foreign-key constraint as a 400-class response, also
leaving the store unchanged. -/
theorem unknown_submission_id_handling (st : Store) (fs : Fs) (sid : Nat)
    (h : ∀ s ∈ st.submissions, s.id ≠ sid) (u : User) :
    getSubmissionDetail (some u) st sid = .notFound "Submission not found" ∧
    downloadReport (some u) st fs sid = .notFound "Report not found" ∧
    (∀ (req : Option StructuredObservation) (dbNow : Nat) (nowStr : String),
      putSubmission (some u) st fs sid req dbNow nowStr =
        (.notFound "Submission not found", st, fs)) ∧
    (u.role = "admin" ∨ u.role = "doctor" →
      ∀ (bsid : Nat) (content : String) (now : Nat),
        postComment (some u) st sid (some bsid) (some content) now =
          (.badRequest "Failed to add comment", st)) := by
  have hfind : st.submissions.find? (fun s => s.id == sid) = none := by
    rw [List.find?_eq_none]
    intro s hs
    simpa using h s hs
  have hnone : getSubmissionById st sid = none := by
    simp [getSubmissionById, hfind]
  have hany : st.submissions.any (fun s => s.id == sid) = false := by
    rw [List.any_eq_false]
    intro s hs
    simpa using h s hs
  refine ⟨by simp [getSubmissionDetail, hnone],
    by simp [downloadReport, hnone], ?_, ?_⟩
  · intro req dbNow nowStr
    simp [putSubmission, hnone]
  · intro hrole bsid content now
    rcases hrole with h' | h' <;>
      simp [postComment, createComment, h', hany]

/-- Witness for the amended C9 on the empty store with id 1. -/
theorem unknown_submission_id_handling_witness :
    (∀ s ∈ st0.submissions, s.id ≠ 1) ∧
    (getSubmissionDetail (some doctor0) st0 1 =
      .notFound "Submission not found" ∧
    downloadReport (some doctor0) st0 fs0 1 = .notFound "Report not found" ∧
    (∀ (req : Option StructuredObservation) (dbNow : Nat) (nowStr : String),
      putSubmission (some doctor0) st0 fs0 1 req dbNow nowStr =
        (.notFound "Submission not found", st0, fs0)) ∧
    (doctor0.role = "admin" ∨ doctor0.role = "doctor" →
      ∀ (bsid : Nat) (content : String) (now : Nat),
        postComment (some doctor0) st0 1 (some bsid) (some content) now =
          (.badRequest "Failed to add comment", st0))) :=
  ⟨by simp [st0],
    unknown_submission_id_handling st0 fs0 1 (by simp [st0]) doctor0⟩

/-! ## Claims C6 and C10: the update endpoint -/

/-- Effect of `updateSubmission` on a store whose `find?` locates row `s`
for the given id: the matching rows get the new structuredData and
`updatedAt`, and the returned row is the updated `s` (the update preserves
`id`, so `find?` locates the mapped version of the same row). -/
theorem updateSubmission_spec (st : Store) (sid : Nat) (s : Submission)
    (v : Option StructuredObservation) (now : Nat)
    (hfind : st.submissions.find? (fun x => x.id == sid) = some s) :
    updateSubmission st sid v now =
      (some { s with structuredData := v, updatedAt := now },
       { st with submissions := st.submissions.map (fun x =>
          if x.id == sid then
            { x with structuredData := v, updatedAt := now }
          else x) }) := by
  have hps : s.id = sid := by
    simpa using List.find?_some hfind
  have hpf : ((fun x : Submission => x.id == sid) ∘ (fun x =>
      if x.id == sid then { x with structuredData := v, updatedAt := now }
      else x)) = fun x => x.id == sid := by
    funext x
    by_cases hx : x.id = sid <;> simp [hx]
  simp only [updateSubmission, Prod.mk.injEq]
  refine ⟨?_, trivial⟩
  rw [List.find?_map, hpf, hfind]
  simp [hps]

/-- C6: editing the structuredData of an existing submission (authorized
caller, truthy body) sets `updatedAt` to the update time, keeps
`createdAt` exactly as before, stores the new structuredData, and
rewrites the stored report artifact (at the old `txtFileName`) from the
new structuredData. -/
theorem edit_rerenders_and_preserves_createdAt
    (st : Store) (fs : Fs) (user : User) (sid : Nat) (s : Submission)
    (hfind : st.submissions.find? (fun x => x.id == sid) = some s)
    (hperm : (user.role == "zookeeper" && s.userId != user.id) = false)
    (f : String) (htxt : s.txtFileName = some f)
    (newSD : StructuredObservation) (dbNow : Nat) (nowStr : String) :
    let r := putSubmission (some user) st fs sid (some newSD) dbNow nowStr
    r.1 = .okUpdated
      (some { s with structuredData := some newSD, updatedAt := dbNow }) ∧
    ({ s with structuredData := some newSD,
              updatedAt := dbNow } : Submission).createdAt = s.createdAt ∧
    ({ s with structuredData := some newSD,
              updatedAt := dbNow } : Submission).updatedAt = dbNow ∧
    ({ s with structuredData := some newSD,
              updatedAt := dbNow } : Submission).structuredData = some newSD ∧
    r.2.2.reports f =
      some (generateTxtReport newSD (findUser st s.userId).name s.date nowStr) ∧
    r.2.1.submissions = st.submissions.map (fun x =>
      if x.id == sid then
        { x with structuredData := some newSD, updatedAt := dbNow }
      else x) := by
  have hbyid : getSubmissionById st sid =
      some ⟨s, findUser st s.userId, getCommentsBySubmission st s.id⟩ := by
    simp [getSubmissionById, hfind]
  have hput : putSubmission (some user) st fs sid (some newSD) dbNow nowStr =
      (.okUpdated
        (some { s with structuredData := some newSD, updatedAt := dbNow }),
       { st with submissions := st.submissions.map (fun x =>
          if x.id == sid then
            { x with structuredData := some newSD, updatedAt := dbNow }
          else x) },
       writeReport fs f
         (generateTxtReport newSD (findUser st s.userId).name s.date nowStr)) := by
    simp only [putSubmission, hbyid, hperm, htxt, Option.getD_some,
      Bool.false_eq_true, if_false,
      updateSubmission_spec st sid s (some newSD) dbNow hfind]
  refine ⟨?_, rfl, rfl, rfl, ?_, ?_⟩
  · rw [hput]
  · rw [hput]
    simp [writeReport]
  · rw [hput]

/-- Witness for C6: keeper0 edits their own stored submission. -/
theorem edit_rerenders_and_preserves_createdAt_witness :
    st1.submissions.find? (fun x => x.id == 1) = some sub0 ∧
    (keeper0.role == "zookeeper" && sub0.userId != keeper0.id) = false ∧
    sub0.txtFileName = some "k1_2024-05-01_8.txt" ∧
    (let r := putSubmission (some keeper0) st1 fs0 1
        (some { date_or_day := some "2024-05-02" }) 20 "TS";
      r.1 = .okUpdated
        (some { sub0 with structuredData := some { date_or_day := some "2024-05-02" },
                          updatedAt := 20 }) ∧
      ({ sub0 with structuredData := some { date_or_day := some "2024-05-02" },
                   updatedAt := 20 } : Submission).createdAt = sub0.createdAt ∧
      ({ sub0 with structuredData := some { date_or_day := some "2024-05-02" },
                   updatedAt := 20 } : Submission).updatedAt = 20 ∧
      ({ sub0 with structuredData := some { date_or_day := some "2024-05-02" },
                   updatedAt := 20 } : Submission).structuredData =
        some { date_or_day := some "2024-05-02" } ∧
      r.2.2.reports "k1_2024-05-01_8.txt" =
        some (generateTxtReport { date_or_day := some "2024-05-02" }
          (findUser st1 sub0.userId).name sub0.date "TS") ∧
      r.2.1.submissions = st1.submissions.map (fun x =>
        if x.id == 1 then
          { x with structuredData := some { date_or_day := some "2024-05-02" },
                   updatedAt := 20 }
        else x)) :=
  ⟨rfl, rfl, rfl,
    edit_rerenders_and_preserves_createdAt st1 fs0 keeper0 1 sub0 rfl rfl
      "k1_2024-05-01_8.txt" rfl { date_or_day := some "2024-05-02" } 20 "TS"⟩

/-- C10: an update request carrying no structuredData still succeeds: the
stored structuredData keeps its previous value, the report artifact is
not rewritten (the file system is untouched), and `updatedAt` is still
advanced to the time of the call. -/
theorem update_without_structuredData
    (st : Store) (fs : Fs) (user : User) (sid : Nat) (s : Submission)
    (hfind : st.submissions.find? (fun x => x.id == sid) = some s)
    (hperm : (user.role == "zookeeper" && s.userId != user.id) = false)
    (dbNow : Nat) (nowStr : String) :
    let r := putSubmission (some user) st fs sid none dbNow nowStr
    r.1 = .okUpdated (some { s with updatedAt := dbNow }) ∧
    ({ s with updatedAt := dbNow } : Submission).structuredData =
      s.structuredData ∧
    ({ s with updatedAt := dbNow } : Submission).createdAt = s.createdAt ∧
    ({ s with updatedAt := dbNow } : Submission).updatedAt = dbNow ∧
    r.2.2 = fs := by
  have hbyid : getSubmissionById st sid =
      some ⟨s, findUser st s.userId, getCommentsBySubmission st s.id⟩ := by
    simp [getSubmissionById, hfind]
  have hput : putSubmission (some user) st fs sid none dbNow nowStr =
      (.okUpdated (some { s with updatedAt := dbNow }),
       { st with submissions := st.submissions.map (fun x =>
          if x.id == sid then
            { x with structuredData := s.structuredData, updatedAt := dbNow }
          else x) },
       fs) := by
    simp only [putSubmission, hbyid, hperm, Bool.false_eq_true, if_false,
      updateSubmission_spec st sid s s.structuredData dbNow hfind]
  refine ⟨?_, rfl, rfl, rfl, ?_⟩
  · rw [hput]
  · rw [hput]

/-- Witness for C10: keeper0 sends an update without structuredData. -/
theorem update_without_structuredData_witness :
    st1.submissions.find? (fun x => x.id == 1) = some sub0 ∧
    (keeper0.role == "zookeeper" && sub0.userId != keeper0.id) = false ∧
    (let r := putSubmission (some keeper0) st1 fs0 1 none 20 "TS";
      r.1 = .okUpdated (some { sub0 with updatedAt := 20 }) ∧
      ({ sub0 with updatedAt := 20 } : Submission).structuredData =
        sub0.structuredData ∧
      ({ sub0 with updatedAt := 20 } : Submission).createdAt =
        sub0.createdAt ∧
      ({ sub0 with updatedAt := 20 } : Submission).updatedAt = 20 ∧
      r.2.2 = fs0) :=
  ⟨rfl, rfl,
    update_without_structuredData st1 fs0 keeper0 1 sub0 rfl rfl 20 "TS"⟩

/-! ## Claim C7 -/

/-- C7: the renderer is deterministic modulo the generation-timestamp
line: two renders of the same structured observation, author and date
decompose as the same fixed prefix and suffix around the respective
timestamp, where the shared prefix ends with the `Generated: ` label of
the timestamp line and the shared suffix starts with the newline that
ends that line — so the outputs are byte-identical except for that one
line. -/
theorem generateTxtReport_deterministic (d : StructuredObservation)
    (n date t₁ t₂ : String) :
    (generateTxtReport d n date t₁).data =
      renderedPre n date ++ t₁.data ++ renderedPost d ∧
    (generateTxtReport d n date t₂).data =
      renderedPre n date ++ t₂.data ++ renderedPost d ∧
    (∃ p : List Char,
      renderedPre n date = p ++ ("\nGenerated: " : String).data) ∧
    (∃ q : List Char, renderedPost d = '\n' :: q) := by
  refine ⟨generateTxtReport_data d n date t₁,
    generateTxtReport_data d n date t₂, ⟨_, rfl⟩, ?_⟩
  unfold renderedPost bodyMain
  simp only [String.data_append, List.append_assoc]
  rw [show tplObs1.data = '\n' ::
    ("\nOBSERVATION DETAILS\n-------------------\nAnimal Observed on Time: "
      : String).data from rfl, List.cons_append]
  exact ⟨_, rfl⟩

/-! ## Claim C8 -/

set_option maxRecDepth 40000 in
/-- C8 counterexample: rendering an observation in which every optional
field is missing does not omit the sections of the missing fields — the
four monitoring-summary sections are rendered with the JavaScript
placeholder text "undefined" (and the missing boolean flags as "No"),
as the explicit split around the daily-health section shows. -/
theorem missing_field_placeholder_counterexample :
    generateTxtReport {} "K" "2024-05-01" "TS" =
      "ZOO ANIMAL MONITORING REPORT\n============================\n\nDate: 2024-05-01\nZoo Keeper: K\nGenerated: TS\n\nOBSERVATION DETAILS\n-------------------\nAnimal Observed on Time: No\nClean Drinking Water Provided: No\nEnclosure Cleaned Properly: No\nNormal Behaviour Status: No\n\nFeed and Supplements Available: No\nFeed Given as Prescribed: No\n\n\nMONITORING SUMMARIES\n--------------------\n"
      ++ "Daily Animal Health Monitoring:\nundefined"
      ++ "\n\nCarnivorous Animal Feeding Chart:\nundefined\n\nMedicine Stock Register:\nundefined\n\nDaily Wildlife Monitoring:\nundefined\n\nAUTHORIZATION\n-------------\nIn-charge Signature: undefined\n\n---\nThis report was generated automatically by the Zoo Management System." := by
  rfl

/-- C8 amended: only the two guarded detail fields are omitted when
missing (or empty) — their labelled line disappears, leaving a blank
line between the neighbouring sections — while a missing
monitoring-summary field is not omitted: its section is rendered with
the placeholder text "undefined". -/
theorem optional_sections_amended (d : StructuredObservation)
    (n date t : String) :
    (d.normal_behaviour_details = none →
      ∃ p q : List Char, (generateTxtReport d n date t).data =
        p ++ (tplObs4 ++ yesNo d.normal_behaviour_status ++ "\n" ++
          tplFeed1).data ++ q) ∧
    (∀ v : String, d.normal_behaviour_details = some v → v ≠ "" →
      ∃ p q : List Char, (generateTxtReport d n date t).data =
        p ++ (tplObs4 ++ yesNo d.normal_behaviour_status ++ "\n" ++
          ("Behaviour Details: " ++ v) ++ tplFeed1).data ++ q) ∧
    (d.other_animal_requirements = none →
      ∃ p q : List Char, (generateTxtReport d n date t).data =
        p ++ (tplFeed2 ++ yesNo d.feed_given_as_prescribed ++ "\n" ++
          tplMon).data ++ q) ∧
    (d.daily_animal_health_monitoring = none →
      ∃ p q : List Char, (generateTxtReport d n date t).data =
        p ++ (tplMon ++ "undefined").data ++ q) := by
  have hempty : (("" : String)).data = ([] : List Char) := rfl
  refine ⟨?_, ?_, ?_, ?_⟩
  · intro h
    refine ⟨renderedPre n date ++ t.data ++
      (tplObs1 ++ yesNo d.animal_observed_on_time ++
       tplObs2 ++ yesNo d.clean_drinking_water_provided ++
       tplObs3 ++ yesNo d.enclosure_cleaned_properly).data,
      (yesNo d.feed_and_supplements_available ++
       tplFeed2 ++ yesNo d.feed_given_as_prescribed ++
       "\n" ++ otherRequirementsLine d ++
       tplMon ++ jsStr d.daily_animal_health_monitoring ++
       tplCafc ++ jsStr d.carnivorous_animal_feeding_chart ++
       tplMsr ++ jsStr d.medicine_stock_register ++
       tplDwm ++ jsStr d.daily_wildlife_monitoring ++
       tplAuth ++ jsStr d.incharge_signature).data ++ tplFootMain.data, ?_⟩
    rw [generateTxtReport_data]
    simp [renderedPost, bodyMain, behaviourDetailsLine, jsTruthyS, h,
      hempty, String.data_append, List.append_assoc]
  · intro v hv hne
    refine ⟨renderedPre n date ++ t.data ++
      (tplObs1 ++ yesNo d.animal_observed_on_time ++
       tplObs2 ++ yesNo d.clean_drinking_water_provided ++
       tplObs3 ++ yesNo d.enclosure_cleaned_properly).data,
      (yesNo d.feed_and_supplements_available ++
       tplFeed2 ++ yesNo d.feed_given_as_prescribed ++
       "\n" ++ otherRequirementsLine d ++
       tplMon ++ jsStr d.daily_animal_health_monitoring ++
       tplCafc ++ jsStr d.carnivorous_animal_feeding_chart ++
       tplMsr ++ jsStr d.medicine_stock_register ++
       tplDwm ++ jsStr d.daily_wildlife_monitoring ++
       tplAuth ++ jsStr d.incharge_signature).data ++ tplFootMain.data, ?_⟩
    rw [generateTxtReport_data]
    simp [renderedPost, bodyMain, behaviourDetailsLine, jsTruthyS, hv, hne,
      jsStr, String.data_append, List.append_assoc]
  · intro h
    refine ⟨renderedPre n date ++ t.data ++
      (tplObs1 ++ yesNo d.animal_observed_on_time ++
       tplObs2 ++ yesNo d.clean_drinking_water_provided ++
       tplObs3 ++ yesNo d.enclosure_cleaned_properly ++
       tplObs4 ++ yesNo d.normal_behaviour_status ++
       "\n" ++ behaviourDetailsLine d ++
       tplFeed1 ++ yesNo d.feed_and_supplements_available).data,
      (jsStr d.daily_animal_health_monitoring ++
       tplCafc ++ jsStr d.carnivorous_animal_feeding_chart ++
       tplMsr ++ jsStr d.medicine_stock_register ++
       tplDwm ++ jsStr d.daily_wildlife_monitoring ++
       tplAuth ++ jsStr d.incharge_signature).data ++ tplFootMain.data, ?_⟩
    rw [generateTxtReport_data]
    simp [renderedPost, bodyMain, otherRequirementsLine, jsTruthyS, h,
      hempty, String.data_append, List.append_assoc]
  · intro h
    refine ⟨renderedPre n date ++ t.data ++
      (tplObs1 ++ yesNo d.animal_observed_on_time ++
       tplObs2 ++ yesNo d.clean_drinking_water_provided ++
       tplObs3 ++ yesNo d.enclosure_cleaned_properly ++
       tplObs4 ++ yesNo d.normal_behaviour_status ++
       "\n" ++ behaviourDetailsLine d ++
       tplFeed1 ++ yesNo d.feed_and_supplements_available ++
       tplFeed2 ++ yesNo d.feed_given_as_prescribed ++
       "\n" ++ otherRequirementsLine d).data,
      (tplCafc ++ jsStr d.carnivorous_animal_feeding_chart ++
       tplMsr ++ jsStr d.medicine_stock_register ++
       tplDwm ++ jsStr d.daily_wildlife_monitoring ++
       tplAuth ++ jsStr d.incharge_signature).data ++ tplFootMain.data, ?_⟩
    rw [generateTxtReport_data]
    simp [renderedPost, bodyMain, jsStr, h,
      String.data_append, List.append_assoc]

/-- Witness for the amended C8: the all-missing observation and an
observation with non-empty behaviour details, at concrete inputs. -/
theorem optional_sections_amended_witness :
    (∃ p q : List Char, (generateTxtReport {} "K" "D" "T").data =
      p ++ (tplObs4 ++ yesNo none ++ "\n" ++ tplFeed1).data ++ q) ∧
    (∃ p q : List Char,
      (generateTxtReport { normal_behaviour_details := some "Calm" }
        "K" "D" "T").data =
      p ++ (tplObs4 ++ yesNo none ++ "\n" ++
        ("Behaviour Details: " ++ "Calm") ++ tplFeed1).data ++ q) ∧
    (∃ p q : List Char, (generateTxtReport {} "K" "D" "T").data =
      p ++ (tplFeed2 ++ yesNo none ++ "\n" ++ tplMon).data ++ q) ∧
    (∃ p q : List Char, (generateTxtReport {} "K" "D" "T").data =
      p ++ (tplMon ++ "undefined").data ++ q) :=
  ⟨(optional_sections_amended {} "K" "D" "T").1 rfl,
   (optional_sections_amended { normal_behaviour_details := some "Calm" }
      "K" "D" "T").2.1 "Calm" rfl (by decide),
   (optional_sections_amended {} "K" "D" "T").2.2.1 rfl,
   (optional_sections_amended {} "K" "D" "T").2.2.2 rfl⟩

end Zoo
